import Mathlib

/-!
Verification of the dprun wrapper crate (crates/dprun/src/lib.rs).

The crate translates a structured session description (`DPRunOptions`, built by
`DPRunOptionsBuilder`) into the command-line invocation of the external `dprun`
tool, and orchestrates the spawned process together with an optional local
callback server (`HostServer`, in the crate's `server` module).

Shallow embedding conventions:
- a 128-bit GUID (`uuid::Uuid`) is a `Nat` (the claims only concern values
  below 2 ^ 128; the formatting function truncates higher bits exactly as a
  fixed-width renderer would);
- Rust `i32` is `Int`; Rust `u8` is `Fin 256`; Rust `u16` truncation
  (`val as u16`) is `(val % 65536).toNat`;
- `String` is Lean `String` (a list of characters); `format!` concatenation is
  string append;
- the opaque `Box<ServiceProvider>` callback handler is modelled by its
  presence (`Bool`), since no code under verification inspects it;
- a Rust `assert!` failure in `DPRunOptionsBuilder::finish` is modelled by
  `Option`: `none` is an abort.
-/

/-- Open-brace character, written by code point to keep it out of string
literals. -/
def openBrace : Char := Char.ofNat 123

/-- Close-brace character. -/
def closeBrace : Char := Char.ofNat 125

/-- Uppercase hexadecimal digit for a value below 16 (as produced by
`encode_upper` in the `uuid` crate). -/
def hexDigitUpper (n : Nat) : Char :=
  if n < 10 then Char.ofNat (48 + n) else Char.ofNat (55 + n)

/-- Lowercase hexadecimal digit for a value below 16 (as produced by the
Rust `x` format specifier). -/
def hexDigitLower (n : Nat) : Char :=
  if n < 10 then Char.ofNat (48 + n) else Char.ofNat (87 + n)

/-- The `w` least-significant hexadecimal digits of `n`, most significant
first, zero-padded to exactly `w` digits. -/
def toHexDigitsUpper : Nat → Nat → List Char
  | _, 0 => []
  | n, w + 1 => toHexDigitsUpper (n / 16) w ++ [hexDigitUpper (n % 16)]

/-- A GUID is a 128-bit value; embedded as `Nat`. -/
abbrev Uuid := Nat

/-- Character list of `to_braced`: uuid's hyphenated form is the 32 hex
digits of the 128-bit value, most significant first, in groups of
8-4-4-4-12 separated by hyphens, here wrapped in braces.  Mirrors
`to_braced` in lib.rs: `res[0] = b'\x7b'; res[37] = b'\x7d';
uuid.to_hyphenated().encode_upper(&mut res[1..=36])`. -/
def bracedChars (u : Uuid) : List Char :=
  openBrace ::
    (toHexDigitsUpper (u / 16 ^ 24) 8 ++ ['-'] ++
     toHexDigitsUpper (u / 16 ^ 20) 4 ++ ['-'] ++
     toHexDigitsUpper (u / 16 ^ 16) 4 ++ ['-'] ++
     toHexDigitsUpper (u / 16 ^ 12) 4 ++ ['-'] ++
     toHexDigitsUpper u 12 ++ [closeBrace])

/-- `fn to_braced(uuid: &Uuid) -> String` from lib.rs. -/
def to_braced (u : Uuid) : String :=
  String.mk (bracedChars u)

/-- The GUID of the DPRun Service Provider,
`B1ED2367-609B-4C5C-8755-D2A29BB9A554` (lib.rs, `GUID_DPRUNSP`). -/
def GUID_DPRUNSP : Uuid := 0xB1ED2367609B4C5C8755D2A29BB9A554

/-- The GUID of the DirectPlay address type containing a port number,
`E4524541-8EA5-11D1-8A96-006097B01411` (lib.rs, `GUID_INETPORT`). -/
def GUID_INETPORT : Uuid := 0xE45245418EA511D18A96006097B01411

/-- `enum SessionType` from lib.rs. -/
inductive SessionType where
  | Host : Option Uuid → SessionType
  | Join : Uuid → SessionType
deriving DecidableEq

/-- `enum DPGUIDOrNamed` from lib.rs. -/
inductive DPGUIDOrNamed where
  | GUID : Uuid → DPGUIDOrNamed
  | Named : String → DPGUIDOrNamed
deriving DecidableEq

/-- `DPGUIDOrNamed::into_string` from lib.rs. -/
def DPGUIDOrNamed.into_string : DPGUIDOrNamed → String
  | DPGUIDOrNamed.GUID guid => to_braced guid
  | DPGUIDOrNamed.Named string => string

/-- `enum DPAddressValue` from lib.rs (`Number(i32)`, `String(String)`,
`Binary(Vec<u8>)`). -/
inductive DPAddressValue where
  | Number : Int → DPAddressValue
  | String : String → DPAddressValue
  | Binary : List (Fin 256) → DPAddressValue
deriving DecidableEq

/-- `struct DPAddressPart` from lib.rs. -/
structure DPAddressPart where
  data_type : DPGUIDOrNamed
  value : DPAddressValue
deriving DecidableEq

/-- `struct DPRunOptions` from lib.rs; `service_provider_handler` records the
presence of the opaque `Box<ServiceProvider>`, and `cwd` is a path modelled
as a string. -/
structure DPRunOptions where
  session_type : SessionType
  player_name : String
  service_provider : DPGUIDOrNamed
  service_provider_handler : Bool
  application : Uuid
  address : List DPAddressPart
  session_name : Option String
  session_password : Option String
  cwd : Option String
deriving DecidableEq

/-- `struct DPRunOptionsBuilder` from lib.rs (all fields defaulted). -/
structure DPRunOptionsBuilder where
  session_type : Option SessionType := none
  player_name : Option String := none
  service_provider : Option DPGUIDOrNamed := none
  service_provider_handler : Bool := false
  application : Option Uuid := none
  address : List DPAddressPart := []
  session_name : Option String := none
  session_password : Option String := none
  cwd : Option String := none
deriving DecidableEq

/-- `DPRunOptionsBuilder::named_service_provider` from lib.rs. -/
def DPRunOptionsBuilder.named_service_provider (b : DPRunOptionsBuilder)
    (service_provider : String) : DPRunOptionsBuilder :=
  { b with service_provider := some (DPGUIDOrNamed.Named service_provider) }

/-- `DPRunOptionsBuilder::service_provider_handler` from lib.rs (the method;
the handler argument itself is opaque, only its presence is recorded):
if no provider is set, select the named provider DPRUN, then store the
handler. -/
def DPRunOptionsBuilder.with_service_provider_handler
    (b : DPRunOptionsBuilder) : DPRunOptionsBuilder :=
  let b1 := if b.service_provider = none
    then b.named_service_provider "DPRUN" else b
  { b1 with service_provider_handler := true }

/-- `DPRunOptionsBuilder::finish` from lib.rs.  The four `assert!`s on the
required fields and the loopback-provider assert are modelled by `none`. -/
def DPRunOptionsBuilder.finish (b : DPRunOptionsBuilder) : Option DPRunOptions :=
  match b.session_type, b.player_name, b.service_provider, b.application with
  | some st, some pn, some sp, some app =>
    if (sp = DPGUIDOrNamed.GUID GUID_DPRUNSP ∨ sp = DPGUIDOrNamed.Named "DPRUN")
        ∧ b.service_provider_handler = false then
      none
    else
      some { session_type := st, player_name := pn, service_provider := sp,
             service_provider_handler := b.service_provider_handler,
             application := app, address := b.address,
             session_name := b.session_name,
             session_password := b.session_password, cwd := b.cwd }
  | _, _, _, _ => none

/-- A set of options "passes validation" when some builder state produces it
through `finish`. -/
def Validated (o : DPRunOptions) : Prop :=
  ∃ b : DPRunOptionsBuilder, b.finish = some o

/-- Hexadecimal digits of `n`, most significant first, no padding (at least
one digit); fuelled structural recursion so that the kernel can evaluate it. -/
def natHexLowerAux : Nat → Nat → List Char
  | 0, _ => []
  | fuel + 1, n =>
    if n < 16 then [hexDigitLower n]
    else natHexLowerAux fuel (n / 16) ++ [hexDigitLower (n % 16)]

/-- Hexadecimal rendering of `n`, lowercase, no padding. -/
def natHexLower (n : Nat) : List Char :=
  natHexLowerAux (n + 1) n

/-- Rust `format!` with the `02x` specifier: lowercase hex, zero-padded on
the left to a minimum width of 2. -/
def fmt02x (b : Fin 256) : List Char :=
  let d := natHexLower b.val
  if d.length < 2 then List.replicate (2 - d.length) '0' ++ d else d

/-- The `--address` value rendering from `run` in lib.rs:
`Number(val)` is `format!("i:\x7b\x7d", val)`; `String(val)` is `val`;
`Binary(val)` is `"b:"` followed by the concatenation of
`format!("\x7b:02x\x7d", c)` over the bytes. -/
def encodeValue : DPAddressValue → String
  | DPAddressValue.Number val => "i:" ++ toString val
  | DPAddressValue.String val => val
  | DPAddressValue.Binary val => "b:" ++ String.mk (val.flatMap fmt02x)

/-- One encoded `--address` token from `run` in lib.rs:
`format!("\x7b\x7d=\x7b\x7d", key, value)` with
`key = part.data_type.into_string()`. -/
def encodePart (part : DPAddressPart) : String :=
  part.data_type.into_string ++ "=" ++ encodeValue part.value

/-- The argument tokens appended by `run` in lib.rs to the base program
invocation (`dprun.exe`, possibly behind the `wine` shim), in the order the
source appends them: mode arguments, then the fixed
player/service-provider/application block, then one `--address` pair per
address part, then the optional session name and session password. -/
def runArgs (o : DPRunOptions) : List String :=
  (match o.session_type with
   | SessionType.Host (some guid) => ["--host", to_braced guid]
   | SessionType.Host none => ["--host"]
   | SessionType.Join guid => ["--join", to_braced guid]) ++
  ["--player", o.player_name,
   "--service-provider", o.service_provider.into_string,
   "--application", to_braced o.application] ++
  (o.address.flatMap (fun part => ["--address", encodePart part])) ++
  (match o.session_name with
   | some name => ["--session-name", name]
   | none => []) ++
  (match o.session_password with
   | some password => ["--session-password", password]
   | none => [])

/-- The launch plan of a set of options: the produced token sequence
together with the working directory (`command.current_dir`). -/
def launchPlan (o : DPRunOptions) : List String × Option String :=
  (runArgs o, o.cwd)

/-- Written from the spec (section 4.1): identifier-or-alias formatting:
delegate to identifier formatting, or return the alias text verbatim. -/
def fmtIdOrAlias : DPGUIDOrNamed → String
  | DPGUIDOrNamed.GUID guid => to_braced guid
  | DPGUIDOrNamed.Named string => string

/-- Written from the spec (section 4.2): a byte renders as exactly two
lowercase hexadecimal digits. -/
def specHexByte (b : Fin 256) : List Char :=
  [hexDigitLower (b.val / 16), hexDigitLower (b.val % 16)]

/-- Written from the spec (section 4.2): value rendering — integer with
prefix `i:` in signed decimal, text verbatim with no prefix, bytes with
prefix `b:` as two lowercase hex digits per byte with no separators. -/
def specEncodeValue : DPAddressValue → String
  | DPAddressValue.Number val => "i:" ++ toString val
  | DPAddressValue.String val => val
  | DPAddressValue.Binary val => "b:" ++ String.mk (val.flatMap specHexByte)

/-- Written from the spec (section 4.2): an encoded address part is
`key=value` with `key` the Identifier Codec's output for the part's key. -/
def specEncodePart (part : DPAddressPart) : String :=
  fmtIdOrAlias part.data_type ++ "=" ++ specEncodeValue part.value

/-- Written from the spec (section 4.4, item 3): the mode argument group. -/
def specModeTokens : SessionType → List String
  | SessionType.Host (some guid) => ["--host", to_braced guid]
  | SessionType.Host none => ["--host"]
  | SessionType.Join guid => ["--join", to_braced guid]

/-- Written from the spec (section 4.4, item 6): an optional trailing
argument group. -/
def specOptTokens (flag : String) : Option String → List String
  | some v => [flag, v]
  | none => []

/-- Written from the spec (section 4.4): the full token sequence — mode
group, `--player`, `--service-provider`, `--application`, one `--address`
pair per part in list order, optional `--session-name`, optional
`--session-password`, in exactly this group order. -/
def specTokens (o : DPRunOptions) : List String :=
  specModeTokens o.session_type ++
  ["--player", o.player_name] ++
  ["--service-provider", fmtIdOrAlias o.service_provider] ++
  ["--application", to_braced o.application] ++
  (o.address.map (fun part => ["--address", specEncodePart part])).flatten ++
  specOptTokens "--session-name" o.session_name ++
  specOptTokens "--session-password" o.session_password

/-- The port-part predicate from `run` in lib.rs:
`part.data_type == DPGUIDOrNamed::GUID(*GUID_INETPORT) ||
 part.data_type == DPGUIDOrNamed::Named("INetPort".to_string())`. -/
def isPortPart (part : DPAddressPart) : Bool :=
  decide (part.data_type = DPGUIDOrNamed.GUID GUID_INETPORT) ||
  decide (part.data_type = DPGUIDOrNamed.Named "INetPort")

/-- `host_server_port` as computed in `run` in lib.rs: present only when a
service provider handler is present; the first address part with the
INetPort key supplies it (a numeric value `val` gives `val as u16`,
any other value gives 2197); absent when no such part exists. -/
def host_server_port (o : DPRunOptions) : Option Nat :=
  if o.service_provider_handler then
    (o.address.find? isPortPart).bind (fun part =>
      match part.value with
      | DPAddressValue.Number val => some ((val % 65536).toNat)
      | _ => some 2197)
  else none

/-- The port the host server is started on in `DPRun::start_with_server`:
`self.host_server_port.unwrap_or(2197)`. -/
def serverPort (o : DPRunOptions) : Nat :=
  (host_server_port o).getD 2197

/-- Written from the claim: the effective port — the first address part
whose key is the INetPort GUID or the alias INetPort supplies it (integer
value `n` gives `n` truncated to 16 bits, text or bytes give 2197), and
2197 when no such part exists. -/
def portSpec : List DPAddressPart → Nat
  | [] => 2197
  | part :: rest =>
    if part.data_type = DPGUIDOrNamed.GUID GUID_INETPORT
        ∨ part.data_type = DPGUIDOrNamed.Named "INetPort" then
      match part.value with
      | DPAddressValue.Number n => (n % 65536).toNat
      | _ => 2197
    else portSpec rest

/-- `std::process::ExitStatus`, reduced to what the crate reads from it:
the exit code, absent when the process was terminated without one (for
example by a signal).  `success()` is `code() == Some(0)`. -/
structure ExitStatus where
  code : Option Int
deriving DecidableEq

/-- `ExitStatus::success`. -/
def ExitStatus.success (es : ExitStatus) : Bool :=
  es.code = some 0

/-- The provisional process result computed at process exit, common to
`DPRun::start_without_server` and `DPRun::start_with_server` in lib.rs:
`if result.success() \x7b Ok(()) \x7d else
 Err(format!("dprun exited with status \x7b\x7d", result.code().unwrap_or(0)))`. -/
def provisionalResult (es : ExitStatus) : Except String Unit :=
  if es.success then Except.ok ()
  else Except.error ("dprun exited with status " ++ toString (es.code.getD 0))

/-- Events observable in a run of `DPRun::start_with_server`. -/
inductive Ev where
  | procExit
  | stopCalled
  | serverResolved
  | reported
deriving DecidableEq

/-- Semantics of the futures 0.1 `Join` combinator at the point where the
left-hand future has resolved and the right-hand one has not (which is the
situation in `start_with_server`: the server future can only resolve after
`controller.stop()`, which the left-hand chain invokes as it completes):
if the already-resolved side is an error, the join completes immediately
with that error and the other side is never awaited; otherwise the join
waits for the right-hand side and an error there becomes the join's error.
Returns whether the right-hand side was awaited, and the joined result
(the item pair is collapsed to `Unit`, as by the trailing `.map(|_| ())`). -/
def joinPoll (left : Except String Unit) (right : Except String Unit) :
    Bool × Except String Unit :=
  match left with
  | Except.error e => (false, Except.error e)
  | Except.ok _ =>
    match right with
    | Except.error e => (true, Except.error e)
    | Except.ok _ => (true, Except.ok ())

/-- Modelled from the spec: the completion future of the Callback Server
(`HostServer`, crate module `server`, not present under src/).  Per the
spec (sections 4.5 and 7, case 4) it resolves only after the stop signal is
observed, either cleanly or with a shutdown error; its outcome is the
parameter `srv` below.

Trace model of `DPRun::start_with_server` after a successful start, driven
by the process exit status `es` and the server outcome `srv`:
the child future resolves with the exit status (event `procExit`); the
`and_then` block turns it into the provisional result; the `then` block
invokes `controller.stop()` (event `stopCalled`) and forwards the
provisional result; `.join(server)` then behaves as `joinPoll` — event
`serverResolved` occurs exactly when the server future was awaited — and
the joined result is reported (event `reported`). -/
def startWithServerModel (es : ExitStatus) (srv : Except String Unit) :
    List Ev × Except String Unit :=
  let prov := provisionalResult es
  let res := joinPoll prov srv
  (Ev.procExit :: Ev.stopCalled ::
     ((if res.1 then [Ev.serverResolved] else []) ++ [Ev.reported]),
   res.2)

/-- The application GUID of the crate's reference case
(`5BFDB060-06A4-11D0-9C4F-00A0C905425E`, dpchat). -/
def dpchatGuid : Uuid := 0x5BFDB06006A411D09C4F00A0C905425E

/-- The service provider GUID of the crate's reference case
(`36E95EE0-8577-11CF-960C-0080C7534E82`, TCP/IP). -/
def tcpipGuid : Uuid := 0x36E95EE0857711CF960C0080C7534E82

/-- The reference options: host with no session GUID, player Test, the
TCP/IP provider, the dpchat application, an alias-keyed text address part
and an identifier-keyed integer address part. -/
def refOptions : DPRunOptions :=
  { session_type := SessionType.Host none,
    player_name := "Test",
    service_provider := DPGUIDOrNamed.GUID tcpipGuid,
    service_provider_handler := false,
    application := dpchatGuid,
    address := [
      { data_type := DPGUIDOrNamed.Named "INet",
        value := DPAddressValue.String "127.0.0.1" },
      { data_type := DPGUIDOrNamed.GUID GUID_INETPORT,
        value := DPAddressValue.Number 2197 }],
    session_name := none,
    session_password := none,
    cwd := none }

/-- The recovered group structure of a token sequence: mode tokens, player
name, provider token, application token, the encoded address tokens in
order, optional session name, optional session password. -/
structure PlanGroups where
  modeTok : List String
  player : String
  provider : String
  application : String
  addresses : List String
  sname : Option String
  spassword : Option String
deriving DecidableEq

/-- The group structure a set of options is serialized into. -/
def groupsOf (o : DPRunOptions) : PlanGroups :=
  { modeTok := specModeTokens o.session_type,
    player := o.player_name,
    provider := o.service_provider.into_string,
    application := to_braced o.application,
    addresses := o.address.map encodePart,
    sname := o.session_name,
    spassword := o.session_password }

/-- Recover the mode token group from the front of a token sequence: a lone
`--host` is recognized by the following token being the literal `--player`
(an identifier token always begins with a brace, so the two cases cannot
collide). -/
def splitMode : List String → Option (List String × List String)
  | [] => none
  | t :: rest =>
    if t = "--host" then
      if rest.head? = some "--player" then some (["--host"], rest)
      else
        match rest with
        | g :: rest2 => some (["--host", g], rest2)
        | [] => none
    else if t = "--join" then
      match rest with
      | g :: rest2 => some (["--join", g], rest2)
      | [] => none
    else none

/-- Greedily consume `--address <token>` pairs from the front of a token
sequence, returning the payload tokens and the remainder. -/
def parseAddrs : List String → Option (List String × List String)
  | [] => some ([], [])
  | f :: rest =>
    if f = "--address" then
      match rest with
      | v :: rest2 =>
        (parseAddrs rest2).map (fun pr => (v :: pr.1, pr.2))
      | [] => none
    else some ([], f :: rest)

/-- Consume an optional two-token flagged group from the front of a token
sequence. -/
def parseOpt (flag : String) : List String → Option String × List String
  | f :: v :: rest =>
    if f = flag then (some v, rest) else (none, f :: v :: rest)
  | other => (none, other)

/-- Deterministic re-derivation of the group structure from a token
sequence: mode group, the fixed positional
`--player`/`--service-provider`/`--application` block, the `--address`
pairs, then the optional trailing groups; anything left over is a
malformed sequence. -/
def decode (ts : List String) : Option PlanGroups :=
  match splitMode ts with
  | none => none
  | some (m, rest) =>
    match rest with
    | f1 :: p :: f2 :: s :: f3 :: a :: rest2 =>
      if f1 = "--player" ∧ f2 = "--service-provider" ∧ f3 = "--application" then
        match parseAddrs rest2 with
        | none => none
        | some (addrs, rest3) =>
          let nm := parseOpt "--session-name" rest3
          let pw := parseOpt "--session-password" nm.2
          if pw.2 = [] then
            some { modeTok := m, player := p, provider := s, application := a,
                   addresses := addrs, sname := nm.1, spassword := pw.1 }
          else none
      else none
    | _ => none

theorem toHexDigitsUpper_length (n w : Nat) : (toHexDigitsUpper n w).length = w := by
  induction w generalizing n with
  | zero => rfl
  | succ w ih => simp [toHexDigitsUpper, ih]

theorem hexDigitUpper_ne_hyphen : ∀ m < 16, hexDigitUpper m ≠ '-' := by decide

theorem hyphen_not_mem_toHexDigitsUpper (n w : Nat) : '-' ∉ toHexDigitsUpper n w := by
  induction w generalizing n with
  | zero => simp [toHexDigitsUpper]
  | succ w ih =>
    simp only [toHexDigitsUpper, List.mem_append, List.mem_singleton]
    rintro (h | h)
    · exact ih _ h
    · exact hexDigitUpper_ne_hyphen (n % 16) (Nat.mod_lt _ (by decide)) h.symm

theorem getElem?_cons_one_add (a : α) (l : List α) (i : Nat) :
    (a :: l)[1 + i]? = l[i]? := by
  rw [Nat.add_comm]
  exact List.getElem?_cons_succ

theorem getElem?_append_add (l1 l2 : List α) (i j : Nat) (h : l1.length = i) :
    (l1 ++ l2)[i + j]? = l2[j]? := by
  subst h
  rw [List.getElem?_append_right (Nat.le_add_right _ _)]
  congr 1
  omega

theorem getElem?_append_cons_self (l1 l2 : List α) (a : α) (i : Nat)
    (h : l1.length = i) : (l1 ++ a :: l2)[i]? = some a := by
  subst h
  rw [List.getElem?_append_right Nat.le.refl]
  simp

theorem bracedChars_hyphen_9 (u : Uuid) : (bracedChars u)[9]? = some '-' := by
  simp only [bracedChars, List.append_assoc, List.cons_append, List.nil_append, List.singleton_append]
  rw [show (9 : Nat) = 1 + 8 from by norm_num, getElem?_cons_one_add,
    getElem?_append_cons_self _ _ _ _ (toHexDigitsUpper_length _ 8)]

theorem bracedChars_hyphen_14 (u : Uuid) : (bracedChars u)[14]? = some '-' := by
  simp only [bracedChars, List.append_assoc, List.cons_append, List.nil_append, List.singleton_append]
  rw [show (14 : Nat) = 1 + 13 from by norm_num, getElem?_cons_one_add,
    show (13 : Nat) = 8 + 5 from by norm_num,
    getElem?_append_add _ _ _ _ (toHexDigitsUpper_length _ 8),
    show (5 : Nat) = 1 + 4 from by norm_num, getElem?_cons_one_add,
    getElem?_append_cons_self _ _ _ _ (toHexDigitsUpper_length _ 4)]

theorem bracedChars_hyphen_19 (u : Uuid) : (bracedChars u)[19]? = some '-' := by
  simp only [bracedChars, List.append_assoc, List.cons_append, List.nil_append, List.singleton_append]
  rw [show (19 : Nat) = 1 + 18 from by norm_num, getElem?_cons_one_add,
    show (18 : Nat) = 8 + 10 from by norm_num,
    getElem?_append_add _ _ _ _ (toHexDigitsUpper_length _ 8),
    show (10 : Nat) = 1 + 9 from by norm_num, getElem?_cons_one_add,
    show (9 : Nat) = 4 + 5 from by norm_num,
    getElem?_append_add _ _ _ _ (toHexDigitsUpper_length _ 4),
    show (5 : Nat) = 1 + 4 from by norm_num, getElem?_cons_one_add,
    getElem?_append_cons_self _ _ _ _ (toHexDigitsUpper_length _ 4)]

theorem bracedChars_hyphen_24 (u : Uuid) : (bracedChars u)[24]? = some '-' := by
  simp only [bracedChars, List.append_assoc, List.cons_append, List.nil_append, List.singleton_append]
  rw [show (24 : Nat) = 1 + 23 from by norm_num, getElem?_cons_one_add,
    show (23 : Nat) = 8 + 15 from by norm_num,
    getElem?_append_add _ _ _ _ (toHexDigitsUpper_length _ 8),
    show (15 : Nat) = 1 + 14 from by norm_num, getElem?_cons_one_add,
    show (14 : Nat) = 4 + 10 from by norm_num,
    getElem?_append_add _ _ _ _ (toHexDigitsUpper_length _ 4),
    show (10 : Nat) = 1 + 9 from by norm_num, getElem?_cons_one_add,
    show (9 : Nat) = 4 + 5 from by norm_num,
    getElem?_append_add _ _ _ _ (toHexDigitsUpper_length _ 4),
    show (5 : Nat) = 1 + 4 from by norm_num, getElem?_cons_one_add,
    getElem?_append_cons_self _ _ _ _ (toHexDigitsUpper_length _ 4)]

theorem bracedChars_count_hyphen (u : Uuid) : (bracedChars u).count '-' = 4 := by
  have h1 := List.count_eq_zero_of_not_mem (hyphen_not_mem_toHexDigitsUpper (u / 16 ^ 24) 8)
  have h2 := List.count_eq_zero_of_not_mem (hyphen_not_mem_toHexDigitsUpper (u / 16 ^ 20) 4)
  have h3 := List.count_eq_zero_of_not_mem (hyphen_not_mem_toHexDigitsUpper (u / 16 ^ 16) 4)
  have h4 := List.count_eq_zero_of_not_mem (hyphen_not_mem_toHexDigitsUpper (u / 16 ^ 12) 4)
  have h5 := List.count_eq_zero_of_not_mem (hyphen_not_mem_toHexDigitsUpper u 12)
  simp only [bracedChars, List.count_cons, List.count_append, List.count_singleton,
    List.count_nil, h1, h2, h3, h4, h5]
  decide

theorem bracedChars_getLast (u : Uuid) : (bracedChars u).getLast? = some closeBrace := by
  unfold bracedChars
  rw [← List.cons_append, List.getLast?_concat]

/-- Claim C3: for every 128-bit identifier, the formatting function
`to_braced` always succeeds (it is total) and returns a string of length
exactly 38 that begins with an open brace, ends with a close brace, and
contains exactly 4 internal hyphens, at the fixed positions 9, 14, 19
and 24. -/
theorem toBraced_shape (u : Uuid) :
    (to_braced u).length = 38 ∧
    (to_braced u).data.head? = some openBrace ∧
    (to_braced u).data.getLast? = some closeBrace ∧
    (to_braced u).data[9]? = some '-' ∧
    (to_braced u).data[14]? = some '-' ∧
    (to_braced u).data[19]? = some '-' ∧
    (to_braced u).data[24]? = some '-' ∧
    (to_braced u).data.count '-' = 4 := by
  refine ⟨?_, rfl, bracedChars_getLast u, bracedChars_hyphen_9 u,
    bracedChars_hyphen_14 u, bracedChars_hyphen_19 u, bracedChars_hyphen_24 u,
    bracedChars_count_hyphen u⟩
  show (bracedChars u).length = 38
  simp [bracedChars, toHexDigitsUpper_length]

set_option maxRecDepth 4000 in
theorem fmt02x_eq_specHexByte : ∀ b : Fin 256, fmt02x b = specHexByte b := by decide

theorem into_string_eq_fmtIdOrAlias (x : DPGUIDOrNamed) :
    x.into_string = fmtIdOrAlias x := by
  cases x <;> rfl

theorem encodeValue_eq_spec (v : DPAddressValue) : encodeValue v = specEncodeValue v := by
  cases v with
  | Number n => rfl
  | String s => rfl
  | Binary l =>
    simp only [encodeValue, specEncodeValue, funext fmt02x_eq_specHexByte]

theorem encodePart_eq_spec (part : DPAddressPart) : encodePart part = specEncodePart part := by
  unfold encodePart specEncodePart
  rw [into_string_eq_fmtIdOrAlias, encodeValue_eq_spec]

theorem addr_tokens_eq (l : List DPAddressPart) :
    l.flatMap (fun part => ["--address", encodePart part]) =
      (l.map (fun part => ["--address", specEncodePart part])).flatten := by
  induction l with
  | nil => rfl
  | cons p ps ih =>
    simp only [List.flatMap_cons, List.map_cons, List.flatten_cons]
    rw [encodePart_eq_spec, ih]

theorem runArgs_eq_specTokens (o : DPRunOptions) : runArgs o = specTokens o := by
  obtain ⟨st, pn, sp, hnd, app, addr, sn, spw, cw⟩ := o
  unfold runArgs specTokens
  rw [addr_tokens_eq, into_string_eq_fmtIdOrAlias]
  rcases st with og | g
  · rcases og with _ | g <;> rcases sn with _ | n <;> rcases spw with _ | p <;> rfl
  · rcases sn with _ | n <;> rcases spw with _ | p <;> rfl

/-- Claim C1: for every spec, the token sequence produced by `run` is exactly
the mode tokens, then `--player`, then `--service-provider`, then
`--application`, then one `--address` pair per address part in list order,
then the optional `--session-name`, then the optional `--session-password`,
in this group order for every spec; and the reference case (host with no
session id, player Test, the fixed provider and application identifiers, an
alias-keyed text part and an identifier-keyed integer part) yields exactly
the expected sequence. -/
theorem run_argument_order :
    (∀ o : DPRunOptions, runArgs o = specTokens o) ∧
    runArgs refOptions =
      ["--host", "--player", "Test",
       "--service-provider", "\x7b36E95EE0-8577-11CF-960C-0080C7534E82\x7d",
       "--application", "\x7b5BFDB060-06A4-11D0-9C4F-00A0C905425E\x7d",
       "--address", "INet=127.0.0.1",
       "--address", "\x7bE4524541-8EA5-11D1-8A96-006097B01411\x7d=i:2197"] :=
  ⟨runArgs_eq_specTokens, by decide⟩

/-- Claim C2: every address part encodes to the single token `key=value`
where an integer renders as `i:` followed by its signed decimal form, a
byte sequence as `b:` followed by two lowercase hex digits per byte, a text
value verbatim with no prefix, and `key` is the identifier codec's output
for the part's key; in particular `-5` gives `i:-5`, the bytes
`[0x0A, 0xFF]` give `b:0aff`, and the text `x` gives `x`. -/
theorem address_part_encoding :
    (∀ part : DPAddressPart, encodePart part = specEncodePart part) ∧
    encodeValue (DPAddressValue.Number (-5)) = "i:-5" ∧
    encodeValue (DPAddressValue.Binary [10, 255]) = "b:0aff" ∧
    encodeValue (DPAddressValue.String "x") = "x" :=
  ⟨encodePart_eq_spec, by decide, by decide, rfl⟩

/-- Claim C4: `finish` returns options (rather than aborting) if and only if
mode, player name, provider and application are all set, and — whenever the
chosen provider equals the loopback provider, by GUID equality with
`GUID_DPRUNSP` or by alias equality with the name DPRUN — a handler has been
registered. -/
theorem finish_precondition (b : DPRunOptionsBuilder) :
    (b.finish).isSome ↔
      (b.session_type.isSome ∧ b.player_name.isSome ∧
       b.service_provider.isSome ∧ b.application.isSome ∧
       ((b.service_provider = some (DPGUIDOrNamed.GUID GUID_DPRUNSP) ∨
         b.service_provider = some (DPGUIDOrNamed.Named "DPRUN")) →
        b.service_provider_handler = true)) := by
  obtain ⟨st, pn, sp, hnd, app, addr, sn, spw, cw⟩ := b
  rcases st with _ | st <;> rcases pn with _ | pn <;>
    rcases sp with _ | sp <;> rcases app with _ | app <;>
      rcases hnd with _ | _ <;>
        simp [DPRunOptionsBuilder.finish]

/-- Claim C9: registering a callback handler stores the handler, and sets
the provider to the named loopback alias DPRUN exactly when no provider had
been chosen yet — an already-chosen provider is left unchanged — while
every other builder field is preserved. -/
theorem handler_registration (b : DPRunOptionsBuilder) :
    (b.with_service_provider_handler).service_provider_handler = true ∧
    (b.with_service_provider_handler).service_provider =
      (if b.service_provider = none then some (DPGUIDOrNamed.Named "DPRUN")
       else b.service_provider) ∧
    (b.with_service_provider_handler).session_type = b.session_type ∧
    (b.with_service_provider_handler).player_name = b.player_name ∧
    (b.with_service_provider_handler).application = b.application ∧
    (b.with_service_provider_handler).address = b.address ∧
    (b.with_service_provider_handler).session_name = b.session_name ∧
    (b.with_service_provider_handler).session_password = b.session_password ∧
    (b.with_service_provider_handler).cwd = b.cwd := by
  obtain ⟨st, pn, sp, hnd, app, addr, sn, spw, cw⟩ := b
  rcases sp with _ | sp <;>
    simp [DPRunOptionsBuilder.with_service_provider_handler,
      DPRunOptionsBuilder.named_service_provider]

/-- Claim C8 (amended): every observed process exit with code 0 yields the
provisional success; a nonzero code yields a failure whose reason embeds
that code; a missing code (abnormal termination) yields a failure whose
reason embeds the placeholder 0 — the code reports the missing code as `0`
(`unwrap_or(0)`), not as a distinct no-code marker. -/
theorem exit_code_reporting (es : ExitStatus) :
    provisionalResult es =
      (match es.code with
       | none => Except.error "dprun exited with status 0"
       | some c =>
         if c = 0 then Except.ok ()
         else Except.error ("dprun exited with status " ++ toString c)) := by
  rcases es with ⟨_ | c⟩
  · rfl
  · by_cases h : c = 0 <;> simp [provisionalResult, ExitStatus.success, h]

/-- Counterexample to claim C8 as stated: a process terminated abnormally
without an exit code is reported as `dprun exited with status 0`; the
failure reason does not contain a no-code marker. -/
theorem exit_code_missing_counterexample :
    provisionalResult { code := none } = Except.error "dprun exited with status 0" ∧
    ¬ ("no code".data <:+: "dprun exited with status 0".data) := by
  constructor
  · rfl
  · decide

/-- Claim C6 (amended): in the post-start model of `start_with_server`, the
stop signal is invoked only after the process exit is observed (the trace
always begins with `procExit` immediately followed by `stopCalled`), and
when the provisional process result is a success the session result is
reported only after the server future has resolved; when the provisional
result is a failure, the `join` short-circuits and the failure is reported
without awaiting the server future. -/
theorem stop_ordering (es : ExitStatus) (srv : Except String Unit) :
    (startWithServerModel es srv).1 =
      Ev.procExit :: Ev.stopCalled ::
        ((if es.success then [Ev.serverResolved] else []) ++ [Ev.reported]) := by
  rcases srv with e | u <;> by_cases h : es.success <;>
    simp [startWithServerModel, joinPoll, provisionalResult, h]

/-- Counterexample to claim C6 as stated: when the process exits with a
nonzero code, the session is reported terminated (with the process failure)
while the server future is never awaited. -/
theorem stop_ordering_counterexample :
    (startWithServerModel { code := some 1 } (Except.ok ())).1 =
      [Ev.procExit, Ev.stopCalled, Ev.reported] ∧
    Ev.serverResolved ∉ (startWithServerModel { code := some 1 } (Except.ok ())).1 ∧
    (startWithServerModel { code := some 1 } (Except.ok ())).2 =
      Except.error "dprun exited with status 1" := by
  refine ⟨rfl, by decide, rfl⟩

/-- Claim C7 (amended): the final reported result of a run with a callback
server equals the provisional process result whenever the process failed or
the server future resolves cleanly; but when the process succeeded, the
final result is whatever the server future resolves with — a server
shutdown error does override a successful process result. -/
theorem final_result_policy (es : ExitStatus) (srv : Except String Unit) :
    (startWithServerModel es srv).2 =
      (if es.success then srv else provisionalResult es) := by
  rcases srv with e | u <;> by_cases h : es.success <;>
    simp [startWithServerModel, joinPoll, provisionalResult, h]

/-- Counterexample to claim C7 as stated: a session whose process exited
with code 0 (provisional success) reports the server's shutdown error as
its final result. -/
theorem final_result_counterexample :
    provisionalResult { code := some 0 } = Except.ok () ∧
    (startWithServerModel { code := some 0 }
        (Except.error "server shutdown failure")).2 =
      Except.error "server shutdown failure" := by
  refine ⟨rfl, rfl⟩

theorem isPortPart_iff (p : DPAddressPart) :
    isPortPart p = true ↔
      (p.data_type = DPGUIDOrNamed.GUID GUID_INETPORT ∨
       p.data_type = DPGUIDOrNamed.Named "INetPort") := by
  simp [isPortPart]

theorem port_find_eq (l : List DPAddressPart) :
    ((l.find? isPortPart).bind (fun part =>
      match part.value with
      | DPAddressValue.Number val => some ((val % 65536).toNat)
      | _ => some 2197)).getD 2197 = portSpec l := by
  induction l with
  | nil => rfl
  | cons p ps ih =>
    obtain ⟨dt, v⟩ := p
    by_cases hp : isPortPart ⟨dt, v⟩
    · rw [List.find?_cons_of_pos _ hp]
      unfold portSpec
      rw [if_pos ((isPortPart_iff _).mp hp)]
      cases v <;> rfl
    · rw [List.find?_cons_of_neg _ hp]
      unfold portSpec
      rw [if_neg (fun hc => hp ((isPortPart_iff _).mpr hc))]
      exact ih

/-- Claim C10: when a callback handler is registered, the callback server's
port is derived from the address list: the first part whose key is the
INetPort GUID or the INetPort alias supplies it — an integer value `n`
gives `n` truncated to 16 bits, a text or byte value gives the default
2197 — and when no such part exists the default 2197 is used; moreover the
INetPort GUID formats as the braced identifier named in the claim. -/
theorem server_port_selection :
    (∀ o : DPRunOptions, o.service_provider_handler = true →
      serverPort o = portSpec o.address) ∧
    to_braced GUID_INETPORT = "\x7bE4524541-8EA5-11D1-8A96-006097B01411\x7d" := by
  constructor
  · intro o h
    unfold serverPort host_server_port
    rw [h, if_pos rfl]
    exact port_find_eq o.address
  · decide

/-- Options with a handler and a single INetPort part whose integer value
exceeds 16 bits, to exercise the truncation path. -/
def portOpts : DPRunOptions :=
  { refOptions with
    service_provider_handler := true,
    address := [{ data_type := DPGUIDOrNamed.GUID GUID_INETPORT,
                  value := DPAddressValue.Number 70000 }] }

/-- Witness for claim C10 at a concrete input: 70000 is truncated to
70000 mod 65536 = 4464. -/
theorem server_port_selection_witness :
    serverPort portOpts = portSpec portOpts.address ∧ serverPort portOpts = 4464 :=
  ⟨server_port_selection.1 portOpts rfl, by decide⟩

theorem to_braced_ne_player (u : Uuid) : to_braced u ≠ "--player" := by
  intro h
  have h2 : (bracedChars u).head? = ("--player".data).head? :=
    congrArg List.head? (congrArg String.data h)
  rw [show (bracedChars u).head? = some openBrace from rfl] at h2
  exact absurd h2 (by decide)

theorem splitMode_host_none (rest : List String) (h : rest.head? = some "--player") :
    splitMode ("--host" :: rest) = some (["--host"], rest) := by
  simp [splitMode, h]

theorem splitMode_host_some (g : Uuid) (rest : List String) :
    splitMode ("--host" :: to_braced g :: rest) =
      some (["--host", to_braced g], rest) := by
  have hne : ¬ ((to_braced g :: rest).head? = some "--player") := by
    simpa using to_braced_ne_player g
  simp only [splitMode, if_true]
  rw [if_neg hne]

theorem splitMode_join (x : String) (rest : List String) :
    splitMode ("--join" :: x :: rest) = some (["--join", x], rest) := by
  simp [splitMode]

theorem parseAddrs_cons_addr (v : String) (ts : List String) :
    parseAddrs ("--address" :: v :: ts) =
      (parseAddrs ts).map (fun pr => (v :: pr.1, pr.2)) := by
  simp only [parseAddrs, if_true]

theorem parseAddrs_other (f : String) (ts : List String) (h : f ≠ "--address") :
    parseAddrs (f :: ts) = some ([], f :: ts) := by
  cases ts with
  | nil =>
    simp only [parseAddrs]
    rw [if_neg h]
  | cons v ts2 =>
    simp only [parseAddrs]
    rw [if_neg h]

theorem parseAddrs_encoded (parts : List DPAddressPart) (rest : List String)
    (h : rest.head? ≠ some "--address") :
    parseAddrs (parts.flatMap (fun p => ["--address", encodePart p]) ++ rest) =
      some (parts.map encodePart, rest) := by
  induction parts with
  | nil =>
    simp only [List.flatMap_nil, List.nil_append, List.map_nil]
    cases rest with
    | nil => rfl
    | cons f r => exact parseAddrs_other f r (by simpa using h)
  | cons p ps ih =>
    simp only [List.flatMap_cons, List.cons_append, List.nil_append,
      List.append_assoc, List.map_cons]
    rw [parseAddrs_cons_addr, ih]
    rfl

theorem parseAddrs_encoded_nil (parts : List DPAddressPart) :
    parseAddrs (parts.flatMap (fun p => ["--address", encodePart p])) =
      some (parts.map encodePart, []) := by
  have h := parseAddrs_encoded parts [] (by simp)
  simpa using h

theorem decode_eq_of (ts m : List String) (pn X Y : String)
    (addr : List DPAddressPart) (sn spw : Option String)
    (hsm : splitMode ts = some (m,
      "--player" :: pn :: "--service-provider" :: X :: "--application" :: Y ::
        (addr.flatMap (fun p => ["--address", encodePart p]) ++
         ((match sn with | some n => ["--session-name", n] | none => []) ++
          (match spw with | some p => ["--session-password", p] | none => []))))) :
    decode ts = some { modeTok := m, player := pn, provider := X, application := Y,
                       addresses := addr.map encodePart, sname := sn,
                       spassword := spw } := by
  rcases sn with _ | n <;> rcases spw with _ | pw <;>
    simp only [List.append_nil, List.nil_append] at hsm <;>
      simp [decode, hsm, parseAddrs_encoded, parseAddrs_encoded_nil, parseOpt]

theorem decode_runArgs (o : DPRunOptions) : decode (runArgs o) = some (groupsOf o) := by
  obtain ⟨st, pn, sp, hnd, app, addr, sn, spw, cw⟩ := o
  rcases st with og | g
  · rcases og with _ | g
    · have hr : runArgs ⟨SessionType.Host none, pn, sp, hnd, app, addr, sn, spw, cw⟩ =
          "--host" :: "--player" :: pn :: "--service-provider" :: sp.into_string ::
          "--application" :: to_braced app ::
          (addr.flatMap (fun p => ["--address", encodePart p]) ++
           ((match sn with | some n => ["--session-name", n] | none => []) ++
            (match spw with | some p => ["--session-password", p] | none => []))) := by
        simp only [runArgs, List.cons_append, List.nil_append, List.append_assoc]
      exact decode_eq_of _ _ pn _ _ addr sn spw
        (by rw [hr]; exact splitMode_host_none _ rfl)
    · have hr : runArgs ⟨SessionType.Host (some g), pn, sp, hnd, app, addr, sn, spw, cw⟩ =
          "--host" :: to_braced g :: "--player" :: pn :: "--service-provider" ::
          sp.into_string :: "--application" :: to_braced app ::
          (addr.flatMap (fun p => ["--address", encodePart p]) ++
           ((match sn with | some n => ["--session-name", n] | none => []) ++
            (match spw with | some p => ["--session-password", p] | none => []))) := by
        simp only [runArgs, List.cons_append, List.nil_append, List.append_assoc]
      exact decode_eq_of _ _ pn _ _ addr sn spw
        (by rw [hr]; exact splitMode_host_some g _)
  · have hr : runArgs ⟨SessionType.Join g, pn, sp, hnd, app, addr, sn, spw, cw⟩ =
        "--join" :: to_braced g :: "--player" :: pn :: "--service-provider" ::
        sp.into_string :: "--application" :: to_braced app ::
        (addr.flatMap (fun p => ["--address", encodePart p]) ++
         ((match sn with | some n => ["--session-name", n] | none => []) ++
          (match spw with | some p => ["--session-password", p] | none => []))) := by
      simp only [runArgs, List.cons_append, List.nil_append, List.append_assoc]
    exact decode_eq_of _ _ pn _ _ addr sn spw
      (by rw [hr]; exact splitMode_join (to_braced g) _)

/-- Claim C5 (amended): every spec's launch plan is re-derivable
deterministically at the token-group level — decoding the produced token
sequence recovers the mode token group, the player name, the provider and
application tokens, the encoded address tokens in order, and the optional
session name and password — and hence equal launch plans imply equal
recovered groups and equal working directories.  Structural injectivity of
the full encoding fails (see the counterexample): an alias spelling the
braced form of an identifier encodes identically to the identifier itself. -/
theorem launch_plan_rederivation :
    (∀ o : DPRunOptions, decode (runArgs o) = some (groupsOf o)) ∧
    (∀ o1 o2 : DPRunOptions, launchPlan o1 = launchPlan o2 →
      groupsOf o1 = groupsOf o2 ∧ o1.cwd = o2.cwd) := by
  refine ⟨decode_runArgs, fun o1 o2 h => ?_⟩
  have h1 : runArgs o1 = runArgs o2 := congrArg Prod.fst h
  have h2 : o1.cwd = o2.cwd := congrArg Prod.snd h
  refine ⟨?_, h2⟩
  have h3 := decode_runArgs o1
  rw [h1, decode_runArgs o2] at h3
  exact (Option.some.inj h3).symm

/-- Witness for the amended claim C5 at a concrete input. -/
theorem launch_plan_rederivation_witness :
    launchPlan refOptions = launchPlan refOptions ∧
    groupsOf refOptions = groupsOf refOptions :=
  ⟨rfl, (launch_plan_rederivation.2 refOptions refOptions rfl).1⟩

/-- The reference options with the provider chosen by alias text that spells
the same braced identifier as the reference provider GUID. -/
def aliasedOptions : DPRunOptions :=
  { refOptions with
    service_provider :=
      DPGUIDOrNamed.Named "\x7b36E95EE0-8577-11CF-960C-0080C7534E82\x7d" }

/-- The builder state producing `refOptions`. -/
def refBuilder : DPRunOptionsBuilder :=
  { session_type := some (SessionType.Host none),
    player_name := some "Test",
    service_provider := some (DPGUIDOrNamed.GUID tcpipGuid),
    service_provider_handler := false,
    application := some dpchatGuid,
    address := refOptions.address,
    session_name := none,
    session_password := none,
    cwd := none }

/-- The builder state producing `aliasedOptions`. -/
def aliasedBuilder : DPRunOptionsBuilder :=
  { refBuilder with
    service_provider :=
      some (DPGUIDOrNamed.Named "\x7b36E95EE0-8577-11CF-960C-0080C7534E82\x7d") }

/-- Counterexample to claim C5 as stated: two structurally different
validated specs — one selecting the provider by GUID, one by an alias that
spells the same braced identifier — yield identical launch plans (same
token sequence, same working directory), so the spec-to-plan encoding is
not injective and a validated spec cannot in general be re-derived from its
plan. -/
theorem launch_plan_counterexample :
    launchPlan refOptions = launchPlan aliasedOptions ∧
    refOptions ≠ aliasedOptions ∧
    Validated refOptions ∧ Validated aliasedOptions := by
  exact ⟨by decide, by decide, ⟨refBuilder, by decide⟩, ⟨aliasedBuilder, by decide⟩⟩
